import Mathlib

/-!
Verification development for run0edit: a shallow embedding of the decision
logic of `run0edit_main.py` (the unprivileged outer script) and
`run0edit_inner.py` (the elevated inner script), with theorems settling the
claims about path validation, the integrity gate, the staged commit with
immutable-attribute toggling, sandbox construction and exit-status handling.

External effects (file reads and writes, `chattr`, `lsattr`, the editor and
the `run0` broker) are modelled by explicit oracle fields describing the
outcome of each external call, and each modelled function returns the list of
external events it performs together with its result, so that control-flow
properties (what is executed on which exit path) become statements about
event traces.
-/

namespace Run0edit

/-- Abstract byte string: file contents and digests are lists of byte values. -/
abbrev Bytes := List Nat

/-! ## Outer script: integrity gate and main loop (`run0edit_main.py`) -/

/-- Environment seen by the outer script's integrity gate: the content of the
file at the inner script's installation path (`none` when the file is
unreadable), and the build-time pinned digest. -/
structure MainEnv where
  innerScript : Option Bytes
  pinnedDigest : Bytes

/-- Model of `validate_inner_script`: read the inner script at its fixed
installation path and compare its digest (computed by `hashFn`, modelling
BLAKE2) with the pinned digest; an unreadable file (`OSError`) yields
`false`. -/
def validate_inner_script (hashFn : Bytes → Bytes) (env : MainEnv) : Bool :=
  match env.innerScript with
  | none => false
  | some contents => hashFn contents == env.pinnedDigest

/-- Outcome of one call of `run` for a path, as seen by `main`'s loop:
either a return code, recording whether the broker (`subprocess.run` on the
`run0` argument list) was invoked during the call, or a
`CommandNotFoundError` escaping from the call. -/
inductive RunOutcome
  | ret (code : Int) (brokerInvoked : Bool)
  | cmdNotFound
  deriving DecidableEq, Repr

/-- Result of the outer `main`: the exit code, how many times the privilege
broker was invoked, and the list of `(path, editor)` pairs for which `run`
was actually called. -/
structure MainResult where
  exitCode : Int
  brokerInvocations : Nat
  attempted : List (String × String)
  deriving DecidableEq, Repr

/-- Model of the `for path in args.paths` loop at the end of `main`: run each
path in turn with the one selected editor, stop as soon as a call returns a
nonzero code (which becomes the exit code) or raises
`CommandNotFoundError` (exit code 1). -/
def mainLoop (editor : String) : List (String × RunOutcome) → MainResult
  | [] => ⟨0, 0, []⟩
  | (p, RunOutcome.cmdNotFound) :: _ => ⟨1, 0, [(p, editor)]⟩
  | (p, RunOutcome.ret c b) :: rest =>
      if c ≠ 0 then ⟨c, if b then 1 else 0, [(p, editor)]⟩
      else
        let r := mainLoop editor rest
        ⟨r.exitCode, (if b then 1 else 0) + r.brokerInvocations, (p, editor) :: r.attempted⟩

/-- The part of `main` after the integrity gate: the usage-mistake check
(exit 2 on `UsageError`), editor selection (exit 1 on
`EditorSelectionError`), then the per-path loop. -/
def main_after_gate (usageOk editorOk : Bool) (editor : String)
    (runs : List (String × RunOutcome)) : MainResult :=
  if !usageOk then ⟨2, 0, []⟩
  else if !editorOk then ⟨1, 0, []⟩
  else mainLoop editor runs

/-- Model of `main`: first the integrity gate (`validate_inner_script`); on
failure print an error and return 1 without reaching any later step, else
proceed with the rest of the workflow. -/
def main_model (hashFn : Bytes → Bytes) (env : MainEnv) (usageOk editorOk : Bool)
    (editor : String) (runs : List (String × RunOutcome)) : MainResult :=
  if validate_inner_script hashFn env then main_after_gate usageOk editorOk editor runs
  else ⟨1, 0, []⟩

/-! ## Outer script: temp-file cleanup after the broker returns -/

/-- Model of `TempFile.remove`: returns whether the temp file (and its
private directory) is deleted, given the file size and the `only_if_empty`
flag. -/
def temp_remove (size : Nat) (only_if_empty : Bool) : Bool :=
  !only_if_empty || size == 0

/-- Result of the tail of the outer `run` after the broker invocation
returned: the exit code, whether the scratch file and its directory were
removed, and whether the "no such directory" error was printed. -/
structure RunPost where
  exitCode : Int
  removed : Bool
  errPrinted : Bool
  deriving DecidableEq, Repr

/-- Model of the `match process.returncode` at the end of the outer `run`:
on 0 remove the temp file and return 0; on 226 print the "no such directory"
message, remove the temp file and return 1; otherwise remove the temp file
only if it is empty and pass the broker's code through. -/
def run_after_broker (returncode : Int) (tempSize : Nat) : RunPost :=
  if returncode = 0 then ⟨0, temp_remove tempSize false, false⟩
  else if returncode = 226 then ⟨1, temp_remove tempSize false, true⟩
  else ⟨returncode, temp_remove tempSize true, false⟩

/-! ## Outer script: directory-existence walk and path validation -/

/-- Three-valued existence answer, as in the `PathExists` enum of the
source. -/
inductive PathExists
  | YES
  | NO
  | MAYBE
  deriving DecidableEq, Repr

/-- A model filesystem tree node: a regular file or a directory with named
entries. `listable` records whether `os.listdir` succeeds on the directory
and `statable` whether `os.stat` succeeds on the node. -/
inductive FSNode
  | file (statable : Bool)
  | dir (listable statable : Bool) (entries : List (String × FSNode))

/-- The walk inside `check_directory_existence`: descend from the filesystem
root along the intermediate components (`real_path.parts[1:-1]`), returning
`NO` when a component is missing from its parent's listing or a
non-directory is traversed, `MAYBE` when a listing fails with a permission
error; at the end, `os.stat` the parent: `MAYBE` if the stat fails,
otherwise `YES`/`NO` according to whether it is a directory. -/
def checkDirWalk : FSNode → List String → PathExists
  | FSNode.file st, [] => if st then PathExists.NO else PathExists.MAYBE
  | FSNode.dir _ st _, [] => if st then PathExists.YES else PathExists.MAYBE
  | FSNode.file _, _ :: _ => PathExists.NO
  | FSNode.dir listable _ entries, p :: rest =>
      if listable then
        match entries.lookup p with
        | none => PathExists.NO
        | some child => checkDirWalk child rest
      else PathExists.MAYBE

/-- Model of `check_directory_existence`: `cs` is the list of path components
of the resolved path below the root, the last being the file name; the walk
visits all components but the last. -/
def check_directory_existence (root : FSNode) (cs : List String) : PathExists :=
  checkDirWalk root cs.dropLast

/-- What the outer script can observe about the target path: `os.path.isdir`,
`os.path.isfile`, `os.access(path, R_OK | W_OK)`, and the results of
`os.statvfs`-based read-only queries on the path and on its containing
directory (`none` when `statvfs` raises `OSError`). -/
structure PathState where
  isdir : Bool
  isfile : Bool
  accessRW : Bool
  roPath : Option Bool
  roDir : Option Bool

/-- Reasons `validate_path` raises `InvalidPathError`. -/
inductive PathError
  | isDirectory
  | alreadyWritable
  | noSuchDirectory
  | readOnlyFS
  deriving DecidableEq, Repr

/-- Model of the outer `validate_path`: reject directories, then regular
files the current user can already read and write, then paths whose
containing directory does not exist (`PathExists.NO`), then paths on a
read-only filesystem (falling back to the containing directory when the
query on the path itself fails). -/
def validate_path (ps : PathState) (root : FSNode) (cs : List String) : Option PathError :=
  if ps.isdir then some PathError.isDirectory
  else if ps.isfile && ps.accessRW then some PathError.alreadyWritable
  else if check_directory_existence root cs = PathExists.NO then some PathError.noSuchDirectory
  else
    let readonly := ps.roPath.orElse fun _ => ps.roDir
    if readonly.getD false then some PathError.readOnlyFS else none

/-! ## Outer script: sandbox policy and broker argument construction -/

/-- The `SYSTEM_CALL_DENY` constant. -/
def SYSTEM_CALL_DENY : List String :=
  ["@aio", "@chown", "@keyring", "@memlock", "@mount", "@privileged",
   "@resources", "@setuid", "memfd_create"]

/-- The `SYSTEMD_SANDBOX_PROPERTIES` constant: the fixed restrictive
baseline of the sandbox policy. -/
def SYSTEMD_SANDBOX_PROPERTIES : List String :=
  ["CapabilityBoundingSet=CAP_DAC_OVERRIDE CAP_FOWNER CAP_LINUX_IMMUTABLE",
   "DevicePolicy=closed",
   "LockPersonality=yes",
   "MemoryDenyWriteExecute=yes",
   "NoNewPrivileges=yes",
   "PrivateDevices=yes",
   "PrivateIPC=yes",
   "PrivateNetwork=yes",
   "ProcSubset=pid",
   "ProtectClock=yes",
   "ProtectControlGroups=yes",
   "ProtectHostname=yes",
   "ProtectKernelLogs=yes",
   "ProtectKernelModules=yes",
   "ProtectKernelTunables=yes",
   "ProtectProc=noaccess",
   "ReadOnlyPaths=/",
   "RestrictAddressFamilies=AF_UNIX",
   "RestrictNamespaces=yes",
   "RestrictRealtime=yes",
   "RestrictSUIDSGID=yes",
   "SystemCallArchitectures=native",
   "SystemCallFilter=@system-service",
   "SystemCallFilter=~" ++ String.intercalate " " SYSTEM_CALL_DENY,
   "SystemCallErrorNumber=EPERM"]

/-- The fixed installation path of the inner script. -/
def INNER_SCRIPT_PATH : String := "/usr/libexec/run0edit/run0edit_inner.py"

/-- First pass of `escape_path`: `path.replace("\\", "\\\\")`, doubling
every backslash. -/
def replaceBackslash : List Char → List Char
  | [] => []
  | c :: rest =>
      if c = '\\' then '\\' :: '\\' :: replaceBackslash rest
      else c :: replaceBackslash rest

/-- Second pass of `escape_path`: `.replace('"', '\\"')`, prefixing every
double quote with a backslash. -/
def replaceQuote : List Char → List Char
  | [] => []
  | c :: rest =>
      if c = '"' then '\\' :: '"' :: replaceQuote rest
      else c :: replaceQuote rest

/-- Model of `escape_path`: escape backslash and double-quote for a systemd
property string, as the two successive `str.replace` calls of the source. -/
def escape_path (path : String) : String :=
  String.mk (replaceQuote (replaceBackslash path.toList))

/-- Model of `sandbox_path`: the path passed to `ReadWritePaths` is the path
itself when it exists, otherwise its containing directory
(`os.path.dirname`). -/
def sandbox_path (pathExists : Bool) (path dirOfPath : String) : String :=
  if pathExists then path else dirOfPath

/-- The `Run0Arguments` dataclass: everything handed to the `run0` broker. -/
structure Run0Arguments where
  description : String
  systemd_properties : List String
  command : String
  command_args : List String
  setenv : List (String × String)
  extra_options : List String
  run0_cmd : String
  deriving DecidableEq, Repr

/-- Model of `Run0Arguments.argument_list`. -/
def Run0Arguments.argument_list (a : Run0Arguments) : List String :=
  [a.run0_cmd, "--description=" ++ a.description]
    ++ a.systemd_properties.map (fun prop => "--property=" ++ prop)
    ++ a.setenv.map (fun kv => "--setenv=" ++ kv.1 ++ "=" ++ kv.2)
    ++ a.extra_options
    ++ ["--", a.command] ++ a.command_args

/-- The `ReadWritePaths` property built in `build_run0_arguments` from the
operative sandbox path and the temp-file path. -/
def rw_path_prop (rw_path temp_path : String) : String :=
  "ReadWritePaths=\"" ++ escape_path rw_path ++ "\" \"" ++ escape_path temp_path ++ "\""

/-- Model of `build_run0_arguments`. `path` is the already-resolved target,
`pathExists` whether `os.path.exists(path)` holds and `dirOfPath` its
`os.path.dirname`; the located `python3` and `run0` executables are fixed at
their usual locations. -/
def build_run0_arguments (path temp_path editor : String) (pathExists : Bool)
    (dirOfPath : String) (bgcolor : Option String) (debug no_prompt : Bool) : Run0Arguments :=
  let rw_path := sandbox_path pathExists path dirOfPath
  let systemd_properties := SYSTEMD_SANDBOX_PROPERTIES ++ [rw_path_prop rw_path temp_path]
  let extra_options := match bgcolor with
    | some c => ["--background=" ++ c]
    | none => []
  let python_args := [INNER_SCRIPT_PATH, path, temp_path, editor]
    ++ (match bgcolor with | some c => [c] | none => [])
  let setenv := (if debug then [("RUN0EDIT_DEBUG", "1")] else [])
    ++ (if no_prompt then [("RUN0EDIT_NO_PROMPT", "1")] else [])
  { description := "run0edit \"" ++ path ++ "\""
    systemd_properties := systemd_properties
    command := "/usr/bin/python3"
    command_args := python_args
    setenv := setenv
    extra_options := extra_options
    run0_cmd := "/usr/bin/run0" }

/-! ## Inner script (`run0edit_inner.py`) -/

/-- Errors of the inner script (subclasses of `Run0editError`), plus the
argument-parsing error. -/
inductive InnerErr
  | notRegularFile
  | noDirectory
  | readOnlyFilesystem
  | readOnlyImmutable
  | readOnlyOther
  | editTempFile
  | fileCopy
  | chattrFailed
  | contentsMismatch
  deriving DecidableEq, Repr

/-- Observable external events of the inner script: `chattr` invocations
(with whether the invocation succeeded), byte-copies between files (with
whether the copy succeeded), the editor invocation, the post-commit
byte-comparison of two files, and printed messages. -/
inductive Ev
  | chattrCall (attr : String) (path : String) (ok : Bool)
  | copyCall (src dest : String) (ok : Bool)
  | editorCall (editor path : String)
  | cmpCall (a b : String)
  | msg (s : String)
  deriving DecidableEq, Repr

/-- Oracle for the external calls made during the commit step: whether
`chattr -i` and `chattr +i` succeed, whether the copy from the temp file to
the target succeeds, and what the post-commit `filecmp.cmp` re-read reports
(`none` models an `OSError` during the comparison). -/
structure CommitWorld where
  chattrMinusOk : Bool
  chattrPlusOk : Bool
  copyOk : Bool
  cmpResult : Option Bool
  deriving DecidableEq, Repr

/-- Model of `copy_to_immutable_original`: remove the immutable attribute
from the operative path (the file itself when it pre-existed, else its
containing directory), copy the temp file to the target inside a
`try/finally` whose `finally` re-applies the attribute and prints a notice,
then re-read and byte-compare the destination against the temp file, raising
`FileContentsMismatchError` on a mismatch or a comparison failure. A failure
of the re-application supersedes a copy failure, as an exception raised in a
`finally` block does in Python. -/
def copy_to_immutable_original (w : CommitWorld) (orig origDir temp : String)
    (origExists : Bool) : List Ev × Option InnerErr :=
  let cp := if origExists then orig else origDir
  if !w.chattrMinusOk then
    ([Ev.chattrCall "-i" cp false], some InnerErr.chattrFailed)
  else
    let evs := [Ev.chattrCall "-i" cp true, Ev.copyCall temp orig w.copyOk,
      Ev.chattrCall "+i" cp w.chattrPlusOk]
    if !w.chattrPlusOk then (evs, some InnerErr.chattrFailed)
    else
      let evs := evs ++ [Ev.msg "Immutable attribute reapplied."]
      if !w.copyOk then (evs, some InnerErr.fileCopy)
      else
        let evs := evs ++ [Ev.cmpCall temp orig]
        if w.cmpResult = some true then (evs, none)
        else (evs, some InnerErr.contentsMismatch)

/-- Model of `copy_to_original`: the immutable path goes through
`copy_to_immutable_original`; the non-immutable path is a bare
`copy_file_contents` with no attribute toggling and no post-commit
comparison. -/
def copy_to_original (w : CommitWorld) (orig origDir temp : String)
    (origExists immutable : Bool) : List Ev × Option InnerErr :=
  if immutable then copy_to_immutable_original w orig origDir temp origExists
  else ([Ev.copyCall temp orig w.copyOk],
    if w.copyOk then none else some InnerErr.fileCopy)

/-- Model of `should_copy_to_original`: commit when the target pre-existed
and the temp contents differ from it byte-for-byte, or when the target did
not pre-exist and the temp file is non-empty. -/
def should_copy_to_original (origContents tempContents : Bytes) (origExists : Bool) : Bool :=
  if origExists then tempContents != origContents
  else decide (tempContents.length > 0)

/-- Model of `handle_copy_to_original`: skip the commit (printing
"unchanged" or "not created") when `should_copy_to_original` is false,
otherwise perform `copy_to_original`, printing a diagnostic before
re-raising each error. -/
def handle_copy_to_original (w : CommitWorld) (orig origDir temp : String)
    (origContents tempContents : Bytes) (origExists immutable : Bool) :
    List Ev × Option InnerErr :=
  if !should_copy_to_original origContents tempContents origExists then
    ([Ev.msg ("run0edit: " ++ orig ++ (if origExists then " unchanged" else " not created"))],
      none)
  else
    let r := copy_to_original w orig origDir temp origExists immutable
    match r.2 with
    | some InnerErr.fileCopy =>
        (r.1 ++ [Ev.msg ("run0edit: unable to copy contents of temporary file at "
          ++ temp ++ " to " ++ orig)], some InnerErr.fileCopy)
    | some InnerErr.chattrFailed =>
        (r.1 ++ [Ev.msg ("run0edit: failed to run chattr on "
            ++ (if origExists then orig else origDir)),
          Ev.msg "WARNING: the immutable attribute may have been removed!"],
          some InnerErr.chattrFailed)
    | some InnerErr.contentsMismatch =>
        (r.1 ++ [Ev.msg ("WARNING: contents of " ++ orig
            ++ " does not match contents of edited tempfile."),
          Ev.msg "File contents may be corrupted!"],
          some InnerErr.contentsMismatch)
    | res => (r.1, res)

/-- What `check_file_exists` finds at the target path. -/
inductive FileStatus
  | existsRegular
  | absent
  | notRegular
  | noDirectory
  deriving DecidableEq, Repr

/-- Model of `check_file_exists`: `true`/`false` for a regular file or an
absent file under an existing parent directory, an error (with a printed
message) when the path is not a regular file or the parent directory does
not exist. -/
def check_file_exists (fs : FileStatus) : List Ev × Except InnerErr Bool :=
  match fs with
  | FileStatus.existsRegular => ([], Except.ok true)
  | FileStatus.absent => ([], Except.ok false)
  | FileStatus.noDirectory =>
      ([Ev.msg "run0edit: invalid argument: directory does not exist"],
        Except.error InnerErr.noDirectory)
  | FileStatus.notRegular =>
      ([Ev.msg "run0edit: invalid argument: not a regular file"],
        Except.error InnerErr.notRegularFile)

/-- Oracle for `check_readonly` on the operative path: the
`os.access(..., R_OK | W_OK)` result, the `readonly_filesystem` query
(`none` when `statvfs` raises), the `is_immutable` result, and the
operator's answer to the removal prompt. -/
structure ReadonlyWorld where
  accessRW : Bool
  roFS : Option Bool
  isImm : Bool
  promptAnswer : Bool
  deriving DecidableEq, Repr

/-- Model of `check_readonly`: a readable-and-writable path needs no
attribute handling; otherwise a read-only filesystem, a declined
immutable-attribute removal, and any other read-only cause each raise their
error; an immutable path whose removal is accepted (or not prompted for)
reports `true`. -/
def check_readonly (w : ReadonlyWorld) (prompt_immutable : Bool) : Except InnerErr Bool :=
  if w.accessRW then Except.ok false
  else if w.roFS.getD false then Except.error InnerErr.readOnlyFilesystem
  else if w.isImm then
    if prompt_immutable && !w.promptAnswer then Except.error InnerErr.readOnlyImmutable
    else Except.ok true
  else Except.error InnerErr.readOnlyOther

/-- Model of `handle_check_readonly`: run `check_readonly`, printing a
message before re-raising each error. -/
def handle_check_readonly (w : ReadonlyWorld) (path : String) (prompt_immutable : Bool) :
    List Ev × Except InnerErr Bool :=
  match check_readonly w prompt_immutable with
  | Except.ok b => ([], Except.ok b)
  | Except.error InnerErr.readOnlyFilesystem =>
      ([Ev.msg ("run0edit: " ++ path ++ " is on a read-only filesystem.")],
        Except.error InnerErr.readOnlyFilesystem)
  | Except.error InnerErr.readOnlyImmutable =>
      ([Ev.msg "run0edit: user declined to remove immutable attribute; exiting."],
        Except.error InnerErr.readOnlyImmutable)
  | Except.error e =>
      ([Ev.msg ("run0edit: " ++ path ++ " is read-only.")], Except.error e)

/-- Model of `run_editor`: invoke the editor on the temp file through `run0
--user=UID`; a missing `run0` or a failing editor both raise
`EditTempFileError` after printing a message. -/
def run_editor (run0Found editorOk : Bool) (editor path : String) :
    List Ev × Option InnerErr :=
  if !run0Found then
    ([Ev.msg "run0edit: failed to call run0 to start editor"], some InnerErr.editTempFile)
  else if !editorOk then
    ([Ev.editorCall editor path,
      Ev.msg ("run0edit: failed to edit temporary file at " ++ path)],
      some InnerErr.editTempFile)
  else ([Ev.editorCall editor path], none)

/-- Oracle for one full elevated session of the inner script. -/
structure InnerWorld where
  fileStatus : FileStatus
  ro : ReadonlyWorld
  copyToTempOk : Bool
  run0Found : Bool
  editorOk : Bool
  origContents : Bytes
  tempAfterEdit : Bytes
  commit : CommitWorld
  deriving Repr

/-- Model of the inner `run`: resolve the target, determine its existence,
check the operative path (the file, or its containing directory for a new
file) for writability, returning normally when the operator declines the
immutable-attribute removal; then stage the target into the temp file when
it exists, invoke the editor, and hand over to `handle_copy_to_original`. -/
def run_inner (w : InnerWorld) (orig origDir temp editor : String)
    (prompt_immutable : Bool) : List Ev × Option InnerErr :=
  match check_file_exists w.fileStatus with
  | (evs0, Except.error e) => (evs0, some e)
  | (evs0, Except.ok origExists) =>
    let basePath := if origExists then orig else origDir
    match handle_check_readonly w.ro basePath prompt_immutable with
    | (evs1, Except.error InnerErr.readOnlyImmutable) => (evs0 ++ evs1, none)
    | (evs1, Except.error e) => (evs0 ++ evs1, some e)
    | (evs1, Except.ok immutable) =>
      if origExists && !w.copyToTempOk then
        (evs0 ++ evs1 ++ [Ev.copyCall orig temp false,
          Ev.msg ("run0edit: failed to copy " ++ orig ++ " to temporary file at " ++ temp)],
          some InnerErr.fileCopy)
      else
        let evs2 := if origExists then [Ev.copyCall orig temp true] else []
        match run_editor w.run0Found w.editorOk editor temp with
        | (evs3, some e) => (evs0 ++ evs1 ++ evs2 ++ evs3, some e)
        | (evs3, none) =>
          let r := handle_copy_to_original w.commit orig origDir temp
            w.origContents w.tempAfterEdit origExists immutable
          (evs0 ++ evs1 ++ evs2 ++ evs3 ++ r.1, r.2)

/-- Errors of the inner `parse_args`. -/
inductive ArgsError
  | tooFew
  | tooMany
  deriving DecidableEq, Repr

/-- Model of the inner `parse_args`: exactly three positional arguments
(target, temp file, editor), with an optional fourth that must be the literal
`--debug`; any other fourth argument, or more than four, is rejected as
"too many arguments". -/
def parse_args (args : List String) : Except ArgsError (String × String × String × Bool) :=
  if args.length < 3 then Except.error ArgsError.tooFew
  else
    let debug := args.length == 4 && args.getD 3 "" == "--debug"
    if (args.length == 4 && args.getD 3 "" != "--debug") || decide (args.length > 4) then
      Except.error ArgsError.tooMany
    else Except.ok (args.getD 0 "", args.getD 1 "", args.getD 2 "", debug)

/-- How the inner `main` terminates: with an exit code, or (in debug mode)
with a `Run0editError` propagating out of it. -/
inductive InnerExit
  | code (n : Int)
  | raised (e : InnerErr)
  deriving DecidableEq, Repr

/-- Model of the inner `main`: exit 2 on invalid arguments; run the
workflow, turning any `Run0editError` into exit 1 (re-raised in debug mode)
and a normal return into exit 0. -/
def inner_main (w : InnerWorld) (args : List String) (origDir : String) : InnerExit :=
  match parse_args args with
  | Except.error _ => InnerExit.code 2
  | Except.ok (orig, temp, editor, debug) =>
    match (run_inner w orig origDir temp editor true).2 with
    | some e => if debug then InnerExit.raised e else InnerExit.code 1
    | none => InnerExit.code 0

/-! ## Theorems -/

/-- C1: if the inner script at its installation path is unreadable or its
digest differs from the pinned digest, `main` returns exit code 1 having
invoked the broker zero times and attempted no path (so no elevation request
is ever constructed or issued); whenever the digest matches, the gate passes
and `main` proceeds with the rest of the workflow. -/
theorem c1_integrity_gate (hashFn : Bytes → Bytes) (env : MainEnv)
    (usageOk editorOk : Bool) (editor : String) (runs : List (String × RunOutcome)) :
    ((env.innerScript = none ∨ ∃ c, env.innerScript = some c ∧ hashFn c ≠ env.pinnedDigest) →
      main_model hashFn env usageOk editorOk editor runs = ⟨1, 0, []⟩) ∧
    ((∃ c, env.innerScript = some c ∧ hashFn c = env.pinnedDigest) →
      main_model hashFn env usageOk editorOk editor runs
        = main_after_gate usageOk editorOk editor runs) := by
  constructor
  · rintro (h | ⟨c, hc, hne⟩)
    · simp [main_model, validate_inner_script, h]
    · simp [main_model, validate_inner_script, hc, hne]
  · rintro ⟨c, hc, he⟩
    simp [main_model, validate_inner_script, hc, he]

/-- Witness for C1 at a concrete mismatching digest: exit code 1, zero
broker invocations, no path attempted. -/
theorem c1_integrity_gate_witness :
    main_model (fun c => c) ⟨some [1, 2], [3]⟩ true true "/usr/bin/nano"
      [("/etc/motd", RunOutcome.ret 0 true)] = ⟨1, 0, []⟩ :=
  (c1_integrity_gate (fun c => c) ⟨some [1, 2], [3]⟩ true true "/usr/bin/nano"
    [("/etc/motd", RunOutcome.ret 0 true)]).1 (Or.inr ⟨[1, 2], rfl, by decide⟩)

/-- C2: in the commit path for an immutable target, on every exit path
(success, copy failure, mismatch, failed re-application), whenever the
`chattr -i` on the operative path has been performed, a matching `chattr +i`
on the same path is executed. -/
theorem c2_chattr_reapplied (w : CommitWorld) (orig origDir temp : String)
    (oc tc : Bytes) (ex : Bool) :
    Ev.chattrCall "-i" (if ex then orig else origDir) true
        ∈ (handle_copy_to_original w orig origDir temp oc tc ex true).1 →
    ∃ b, Ev.chattrCall "+i" (if ex then orig else origDir) b
        ∈ (handle_copy_to_original w orig origDir temp oc tc ex true).1 := by
  intro hmem
  refine ⟨w.chattrPlusOk, ?_⟩
  simp only [handle_copy_to_original, copy_to_original, copy_to_immutable_original] at hmem ⊢
  rcases w with ⟨cm, cp, co, cr⟩
  by_cases hs : should_copy_to_original oc tc ex <;>
    cases cm <;> cases cp <;> cases co <;>
      rcases cr with _ | _ | _ <;> simp_all

/-- Witness for C2 at a concrete commit in which the copy fails: the
`chattr -i` was performed and the matching `chattr +i` appears in the
trace. -/
theorem c2_chattr_reapplied_witness :
    ∃ b, Ev.chattrCall "+i" "/etc/motd" b
        ∈ (handle_copy_to_original ⟨true, true, false, some true⟩ "/etc/motd" "/etc"
            "/tmp/t" [1] [2] true true).1 :=
  c2_chattr_reapplied ⟨true, true, false, some true⟩ "/etc/motd" "/etc"
    "/tmp/t" [1] [2] true (by decide)

/-- C3 counterexample: a commit of a pre-existing, non-immutable target in
which the copy succeeds but the destination does not match the temp file
(the comparison oracle reports `false`); the claim requires a re-read,
byte-compare, and a `FileContentsMismatchError`, yet the code performs no
comparison and reports success. -/
theorem c3_counterexample :
    (copy_to_original ⟨true, true, true, some false⟩ "/etc/motd" "/etc" "/tmp/t"
        true false).2 = none ∧
    Ev.cmpCall "/tmp/t" "/etc/motd"
        ∉ (copy_to_original ⟨true, true, true, some false⟩ "/etc/motd" "/etc" "/tmp/t"
            true false).1 := by
  decide

/-- C3 amended: the post-commit verification happens exactly in the
immutable commit path: there, once `chattr -i`, the copy, and the
`chattr +i` re-application all succeed, the destination is re-read and
byte-compared against the temp file and anything but a clean match raises
`FileContentsMismatchError`; the non-immutable commit path performs no
post-commit comparison. -/
theorem c3_amended_verification (w : CommitWorld) (orig origDir temp : String) (ex : Bool) :
    (w.chattrMinusOk = true → w.copyOk = true → w.chattrPlusOk = true →
      Ev.cmpCall temp orig ∈ (copy_to_original w orig origDir temp ex true).1 ∧
      (copy_to_original w orig origDir temp ex true).2
        = (if w.cmpResult = some true then none else some InnerErr.contentsMismatch)) ∧
    ((∀ a b, Ev.cmpCall a b ∉ (copy_to_original w orig origDir temp ex false).1) ∧
      (copy_to_original w orig origDir temp ex false).2
        = (if w.copyOk then none else some InnerErr.fileCopy)) := by
  constructor
  · intro h1 h2 h3
    simp only [copy_to_original, copy_to_immutable_original, h1, h2, h3]
    by_cases hcr : w.cmpResult = some true <;> simp [hcr]
  · constructor
    · intro a b
      simp [copy_to_original]
    · simp [copy_to_original]

/-- Witness for C3 amended at a concrete immutable commit with a mismatching
re-read: the comparison is in the trace and `FileContentsMismatchError` is
raised. -/
theorem c3_amended_verification_witness :
    Ev.cmpCall "/tmp/t" "/etc/motd"
        ∈ (copy_to_original ⟨true, true, true, some false⟩ "/etc/motd" "/etc" "/tmp/t"
            true true).1 ∧
    (copy_to_original ⟨true, true, true, some false⟩ "/etc/motd" "/etc" "/tmp/t"
        true true).2
      = (if (some false : Option Bool) = some true then none
          else some InnerErr.contentsMismatch) :=
  (c3_amended_verification ⟨true, true, true, some false⟩ "/etc/motd" "/etc" "/tmp/t"
    true).1 rfl rfl rfl

/-- C4: the commit decision is true exactly when the target pre-existed and
the temp contents differ from it byte-for-byte, or the target did not
pre-exist and the temp file is non-empty; when it is false the commit
performs no copy and no attribute toggle and only prints "unchanged" (for a
pre-existing target) or "not created" (for a new one); when it is true the
commit step is entered (a copy, or for an immutable target the initial
`chattr -i`, appears in the trace). -/
theorem c4_commit_decision (w : CommitWorld) (orig origDir temp : String)
    (oc tc : Bytes) (ex imm : Bool) :
    (should_copy_to_original oc tc ex = true ↔
      ((ex = true ∧ tc ≠ oc) ∨ (ex = false ∧ tc ≠ []))) ∧
    (should_copy_to_original oc tc ex = false →
      handle_copy_to_original w orig origDir temp oc tc ex imm
        = ([Ev.msg ("run0edit: " ++ orig ++ (if ex then " unchanged" else " not created"))],
            none)) ∧
    (should_copy_to_original oc tc ex = true →
      (∃ b, Ev.copyCall temp orig b ∈ (handle_copy_to_original w orig origDir temp oc tc ex imm).1)
        ∨ (∃ b, Ev.chattrCall "-i" (if ex then orig else origDir) b
            ∈ (handle_copy_to_original w orig origDir temp oc tc ex imm).1)) := by
  refine ⟨?_, ?_, ?_⟩
  · cases ex <;>
      simp [should_copy_to_original, List.length_pos, bne_iff_ne]
  · intro hs
    simp [handle_copy_to_original, hs]
  · intro hs
    simp only [handle_copy_to_original, copy_to_original, copy_to_immutable_original, hs]
    rcases w with ⟨cm, cp, co, cr⟩
    cases imm <;> cases cm <;> cases cp <;> cases co <;>
      rcases cr with _ | _ | _ <;> simp_all

/-- Witness for C4 at a concrete unchanged pre-existing target: the commit
is skipped and only the "unchanged" message is printed. -/
theorem c4_commit_decision_witness :
    handle_copy_to_original ⟨true, true, true, some true⟩ "/etc/motd" "/etc" "/tmp/t"
        [7] [7] true true
      = ([Ev.msg ("run0edit: " ++ "/etc/motd"
          ++ (if true then " unchanged" else " not created"))], none) :=
  (c4_commit_decision ⟨true, true, true, some true⟩ "/etc/motd" "/etc" "/tmp/t"
    [7] [7] true true).2.1 (by decide)

/-- C5 counterexample: for a target that does not exist (the
file-creation case), the writable-paths property handed to the broker names
the target's containing directory, not the resolved target path itself: the
property required by the claim is absent from the sandbox policy. -/
theorem c5_counterexample :
    rw_path_prop "/etc/new.conf" "/tmp/new.conf.x"
        ∉ (build_run0_arguments "/etc/new.conf" "/tmp/new.conf.x" "/usr/bin/nano" false
            "/etc" none false false).systemd_properties ∧
    rw_path_prop "/etc" "/tmp/new.conf.x"
        ∈ (build_run0_arguments "/etc/new.conf" "/tmp/new.conf.x" "/usr/bin/nano" false
            "/etc" none false false).systemd_properties := by
  decide

/-- C5 amended: the sandbox policy handed to the broker is the fixed
restrictive baseline plus exactly one writable-paths property, and that
property names exactly two (escaped) paths: the operative sandbox path — the
resolved target itself when it exists, otherwise its containing directory —
and the scratch file path; no baseline property is a writable-paths
property, and the baseline mounts the whole filesystem read-only. -/
theorem c5_amended_sandbox (path temp_path editor dirOfPath : String) (pathExists : Bool)
    (bgcolor : Option String) (debug no_prompt : Bool) :
    (build_run0_arguments path temp_path editor pathExists dirOfPath bgcolor
        debug no_prompt).systemd_properties
      = SYSTEMD_SANDBOX_PROPERTIES
          ++ [rw_path_prop (sandbox_path pathExists path dirOfPath) temp_path] ∧
    rw_path_prop (sandbox_path pathExists path dirOfPath) temp_path
      = "ReadWritePaths=\"" ++ escape_path (if pathExists then path else dirOfPath)
          ++ "\" \"" ++ escape_path temp_path ++ "\"" ∧
    (∀ p ∈ SYSTEMD_SANDBOX_PROPERTIES, p.toList.take 14 ≠ "ReadWritePaths".toList) ∧
    "ReadOnlyPaths=/" ∈ SYSTEMD_SANDBOX_PROPERTIES := by
  refine ⟨rfl, ?_, by decide, by decide⟩
  cases pathExists <;> rfl

/-- Witness for C5 amended at a concrete existing target. -/
theorem c5_amended_sandbox_witness :
    (build_run0_arguments "/etc/motd" "/tmp/motd.x" "/usr/bin/nano" true "/etc" none
        false false).systemd_properties
      = SYSTEMD_SANDBOX_PROPERTIES ++ [rw_path_prop (sandbox_path true "/etc/motd" "/etc")
          "/tmp/motd.x"] :=
  (c5_amended_sandbox "/etc/motd" "/tmp/motd.x" "/usr/bin/nano" "/etc" true none
    false false).1

/-- C6 evaluated at the failing input: with the background-color hint "44"
supplied, the outer script hands the elevated payload the four-element
argument vector (target, scratch, editor, "44"), but the inner script's
`parse_args` rejects any fourth argument other than the literal `--debug`
as "too many arguments", so the inner `main` exits 2 instead of proceeding
with the edit workflow. -/
theorem c6_bgcolor_vector_rejected :
    (build_run0_arguments "/etc/motd" "/tmp/motd.x" "/usr/bin/nano" true "/etc"
        (some "44") false false).command_args
      = [INNER_SCRIPT_PATH, "/etc/motd", "/tmp/motd.x", "/usr/bin/nano", "44"] ∧
    parse_args ["/etc/motd", "/tmp/motd.x", "/usr/bin/nano", "44"]
      = Except.error ArgsError.tooMany ∧
    inner_main ⟨FileStatus.existsRegular, ⟨false, none, true, true⟩, true, true, true,
        [1], [2], ⟨true, true, true, some true⟩⟩
      ["/etc/motd", "/tmp/motd.x", "/usr/bin/nano", "44"] "/etc"
      = InnerExit.code 2 := by
  refine ⟨rfl, by rfl, ?_⟩
  simp [inner_main, parse_args]

/-- C7: `validate_path` rejects exactly when the path is a directory, or is
a regular file the current unprivileged user can already read and write, or
the directory walk definitely rules out the containing directory
(`PathExists.NO`), or the read-only-filesystem query on the path (falling
back to the containing directory when the query on the path fails) reports
read-only; in particular a walk that cannot determine existence
(`PathExists.MAYBE`, e.g. because an intermediate directory is unreadable)
does not cause a rejection. -/
theorem c7_validate_path (ps : PathState) (root : FSNode) (cs : List String) :
    ((validate_path ps root cs).isSome = true ↔
      (ps.isdir = true ∨ (ps.isfile = true ∧ ps.accessRW = true)
        ∨ check_directory_existence root cs = PathExists.NO
        ∨ (ps.roPath.orElse fun _ => ps.roDir).getD false = true)) ∧
    (check_directory_existence root cs = PathExists.MAYBE → ps.isdir = false →
      (ps.isfile && ps.accessRW) = false →
      (ps.roPath.orElse fun _ => ps.roDir).getD false = false →
      validate_path ps root cs = none) := by
  constructor
  · unfold validate_path
    split_ifs <;> simp_all
  · intro hmay h1 h2 h3
    unfold validate_path
    simp_all [hmay]

/-- Witness for C7 on a concrete tree whose intermediate directory `/a` is
unreadable: the walk answers `MAYBE` and the path is not rejected. -/
theorem c7_validate_path_witness :
    validate_path ⟨false, false, false, none, none⟩
      (FSNode.dir true true [("a", FSNode.dir false true [("b", FSNode.dir true true [])])])
      ["a", "b", "c"] = none :=
  (c7_validate_path ⟨false, false, false, none, none⟩
    (FSNode.dir true true [("a", FSNode.dir false true [("b", FSNode.dir true true [])])])
    ["a", "b", "c"]).2 (by decide) rfl rfl rfl

/-- C8: when the operative path is not writable, not on a read-only
filesystem, and immutable, and the operator declines the attribute removal,
the elevated `run` returns normally with no copy, no editor invocation and
no `chattr` in its trace, and the inner `main` exits with status 0 — the
same status as ordinary success. -/
theorem c8_decline_clean_exit (w : InnerWorld) (orig origDir temp editor : String)
    (hAcc : w.ro.accessRW = false) (hro : w.ro.roFS.getD false = false)
    (hImm : w.ro.isImm = true) (hAns : w.ro.promptAnswer = false)
    (hfs : w.fileStatus = FileStatus.existsRegular ∨ w.fileStatus = FileStatus.absent) :
    (run_inner w orig origDir temp editor true).2 = none ∧
    (∀ a p b, Ev.chattrCall a p b ∉ (run_inner w orig origDir temp editor true).1) ∧
    (∀ s d b, Ev.copyCall s d b ∉ (run_inner w orig origDir temp editor true).1) ∧
    (∀ e p, Ev.editorCall e p ∉ (run_inner w orig origDir temp editor true).1) ∧
    inner_main w [orig, temp, editor] origDir = InnerExit.code 0 := by
  rcases hfs with h | h <;>
    simp_all [run_inner, inner_main, parse_args, check_file_exists,
      handle_check_readonly, check_readonly]

/-- Witness for C8 at a concrete declining session on an existing immutable
file. -/
theorem c8_decline_clean_exit_witness :
    inner_main ⟨FileStatus.existsRegular, ⟨false, some false, true, false⟩, true, true, true,
        [1], [2], ⟨true, true, true, some true⟩⟩
      ["/etc/motd", "/tmp/t", "/usr/bin/nano"] "/etc" = InnerExit.code 0 :=
  (c8_decline_clean_exit ⟨FileStatus.existsRegular, ⟨false, some false, true, false⟩,
    true, true, true, [1], [2], ⟨true, true, true, some true⟩⟩
    "/etc/motd" "/etc" "/tmp/t" "/usr/bin/nano" rfl rfl rfl rfl (Or.inl rfl)).2.2.2.2

/-- C9: after the broker invocation returns, the scratch file (and with it
its private directory) is deleted unless the broker's exit status is
neither 0 nor 226 and the scratch file is non-empty, in which case it is
preserved for recovery; on exit status 0 the deletion is unconditional and
`run` returns 0. -/
theorem c9_scratch_cleanup (returncode : Int) (tempSize : Nat) :
    ((run_after_broker returncode tempSize).removed = false ↔
      (returncode ≠ 0 ∧ returncode ≠ 226 ∧ tempSize ≠ 0)) ∧
    (returncode = 0 →
      run_after_broker returncode tempSize = ⟨0, true, false⟩) := by
  constructor
  · unfold run_after_broker temp_remove
    split_ifs <;> simp_all
  · intro h
    simp [run_after_broker, temp_remove, h]

/-- Witness for C9 at exit status 0 and a non-empty scratch file. -/
theorem c9_scratch_cleanup_witness :
    run_after_broker 0 5 = ⟨0, true, false⟩ :=
  (c9_scratch_cleanup 0 5).2 rfl

/-- C10: the outer `main` edits its FILE arguments sequentially, each with
the same selected editor; it stops at the first path whose `run` returns a
nonzero code, that code becomes the exit code, and the remaining paths are
never attempted; when every `run` returns 0 the exit code is 0 and every
path is attempted with that editor. -/
theorem c10_sequential_paths (editor : String) (pre post : List (String × RunOutcome))
    (p : String) (c : Int) (b : Bool) :
    ((∀ x ∈ pre, ∃ br, x.2 = RunOutcome.ret 0 br) → c ≠ 0 →
      (mainLoop editor (pre ++ (p, RunOutcome.ret c b) :: post)).exitCode = c ∧
      (mainLoop editor (pre ++ (p, RunOutcome.ret c b) :: post)).attempted
        = pre.map (fun x => (x.1, editor)) ++ [(p, editor)]) ∧
    ((∀ x ∈ pre, ∃ br, x.2 = RunOutcome.ret 0 br) →
      (mainLoop editor pre).exitCode = 0 ∧
      (mainLoop editor pre).attempted = pre.map (fun x => (x.1, editor))) := by
  induction pre with
  | nil =>
      refine ⟨fun _ hc => ?_, fun _ => by simp [mainLoop]⟩
      simp [mainLoop, hc]
  | cons hd tl ih =>
      constructor
      · rintro hall hc
        obtain ⟨br, hbr⟩ := hall hd (List.mem_cons_self hd tl)
        obtain ⟨q, _⟩ := hd
        simp only at hbr
        subst hbr
        have := (ih.1 (fun x hx => hall x (List.mem_cons_of_mem _ hx)) hc)
        simp [mainLoop, this.1, this.2]
      · rintro hall
        obtain ⟨br, hbr⟩ := hall hd (List.mem_cons_self hd tl)
        obtain ⟨q, _⟩ := hd
        simp only at hbr
        subst hbr
        have := ih.2 (fun x hx => hall x (List.mem_cons_of_mem _ hx))
        simp [mainLoop, this.1, this.2]

/-- Witness for C10 at a concrete list where the second path fails with
code 42: the third path is never attempted and the exit code is 42. -/
theorem c10_sequential_paths_witness :
    (mainLoop "/usr/bin/nano" ([("a", RunOutcome.ret 0 true)]
        ++ ("b", RunOutcome.ret 42 true) :: [("c", RunOutcome.ret 0 true)])).exitCode = 42 ∧
    (mainLoop "/usr/bin/nano" ([("a", RunOutcome.ret 0 true)]
        ++ ("b", RunOutcome.ret 42 true) :: [("c", RunOutcome.ret 0 true)])).attempted
      = [("a", "/usr/bin/nano"), ("b", "/usr/bin/nano")] :=
  (c10_sequential_paths "/usr/bin/nano" [("a", RunOutcome.ret 0 true)]
    [("c", RunOutcome.ret 0 true)] "b" 42 true).1
    (by simp) (by decide)

end Run0edit
